import Mathlib

/-!
Verification of the tool-augmented conversation loop of the gourmand recipe
CLI (`src/cli/recipes_main.rs`).

The Rust program drives a multi-turn conversation with a remote model that
may request execution of one declared tool (`transmit_recipe`).  Here the
program's data model and operations are embedded shallowly:

* AWS SDK message types (`Message`, `ContentBlock`, `ToolUseBlock`,
  `ToolResultBlock`, `StopReason`, ...) become Lean inductives/structures.
* The two remote services (model turns, image generation) are oracles: each
  run is parameterised by a script of service responses (`Env`).
* `panic!`/`todo!`/`unwrap` failures become `Except.error`.
* Side effects (stdout prints, log warnings, filesystem writes, dispatched
  tools) are collected in an `Outputs` record.
-/

/-- Embeds `aws_sdk_bedrockruntime::types::ConversationRole`. -/
inductive ConversationRole where
  | user
  | assistant
deriving DecidableEq

/-- Embeds `aws_smithy_types::Document`: the structured input of a tool-use block. -/
inductive Document where
  | null
  | bool (b : Bool)
  | number (n : Int)
  | string (s : String)
  | array (xs : List Document)
  | object (kvs : List (String × Document))

/-- Embeds `Document::as_string`: `Some` only on the string variant. -/
def Document.as_string : Document → Option String
  | .string s => some s
  | _ => none

/-- Embeds `Document::as_object`: `Some` only on the object variant. -/
def Document.as_object : Document → Option (List (String × Document))
  | .object kvs => some kvs
  | _ => none

/-- Embeds `aws_sdk_bedrockruntime::types::ToolUseBlock`. -/
structure ToolUseBlock where
  tool_use_id : String
  name : String
  input : Document

/-- Embeds `aws_sdk_bedrockruntime::types::ToolResultContentBlock` (only the Text
variant is used by the program). -/
inductive ToolResultContentBlock where
  | text (s : String)

/-- Embeds `aws_sdk_bedrockruntime::types::ToolResultBlock`. -/
structure ToolResultBlock where
  tool_use_id : String
  content : List ToolResultContentBlock

/-- Embeds `aws_sdk_bedrockruntime::types::ContentBlock`.  The enum is open-ended
(`#[non_exhaustive]`); `other` stands for any variant not named in the
program's match (matched by its `_` arm). -/
inductive ContentBlock where
  | document
  | guardContent
  | image
  | text (s : String)
  | toolResult (b : ToolResultBlock)
  | toolUse (b : ToolUseBlock)
  | video
  | other (tag : String)

/-- Embeds `aws_sdk_bedrockruntime::types::Message`. -/
structure Message where
  role : ConversationRole
  content : List ContentBlock

/-- Embeds `aws_sdk_bedrockruntime::types::StopReason`. -/
inductive StopReason where
  | contentFiltered
  | endTurn
  | guardrailIntervened
  | maxTokens
  | stopSequence
  | toolUse
  | unknown (s : String)

/-- Embeds `aws_sdk_bedrockruntime::types::ConverseOutput`. -/
inductive ConverseOutput where
  | message (m : Message)
  | unknown

/-- The part of the `converse` response the program reads: a stop reason and
an optional output. -/
structure ConverseResponse where
  stop_reason : StopReason
  output : Option ConverseOutput

/-- Result of one `converse` network call: either a response or a service
error (throttling etc., which the program `unwrap`s into a panic). -/
inductive ServiceResult where
  | ok (r : ConverseResponse)
  | err (e : String)

/-- Embeds `rusty_bedrock_lib::converse::tool_use::ToolArgType` (only String used). -/
inductive ToolArgType where
  | string

/-- Embeds `rusty_bedrock_lib::converse::tool_use::ToolArg`. -/
structure ToolArg where
  name : String
  description : String
  ty : ToolArgType
  required : Bool

/-- The tool configuration built by `mk_tool`: one tool with a name, a
description and an input schema. -/
structure ToolConfiguration where
  name : String
  description : String
  inputs : List ToolArg

/-- Embeds `ConversationState` (the bedrock `client` handle, an opaque external
resource, is not part of the embedded state). -/
structure ConversationState where
  model : String
  output : String
  verbose : Bool
  system_prompt : Option (List String)
  messages : List Message
  tools : Option ToolConfiguration

/-- Embeds `ConversationTurnInput`. -/
inductive ConversationTurnInput where
  | prompt (txt : String)
  | toolResponse (tool : ToolResultBlock)

/-- Embeds `ConversationTurnInput::to_content`. -/
def ConversationTurnInput.to_content : ConversationTurnInput → ContentBlock
  | .prompt txt => ContentBlock.text txt
  | .toolResponse tool => ContentBlock.toolResult tool

/-- Embeds `mk_recipe_tramission_tool` (sic): declares the single tool. -/
def mk_recipe_tramission_tool : ToolConfiguration :=
  { name := "transmit_recipe"
    description := "this tool transmits a recipe"
    inputs :=
      [ { name := "recipe_details"
          description := "The actual recipe, including ingredients, instructions, and shopping list"
          ty := ToolArgType.string
          required := true }
      , { name := "image_prompt"
          description := "A prompt suitable for an image generation model"
          ty := ToolArgType.string
          required := true }
      , { name := "file_stem"
          description := "a file stem for this recipe"
          ty := ToolArgType.string
          required := true } ] }

-- ==========================================
-- Path sanitisation (library function, modelled from the spec)
-- ==========================================

/-- Is a character one of `[a-z0-9_]` (by code point)? -/
def sanValidChar (c : Char) : Bool :=
  decide ((97 ≤ c.toNat ∧ c.toNat ≤ 122) ∨ (48 ≤ c.toNat ∧ c.toNat ≤ 57) ∨ c.toNat = 95)

/-- Modelled from the spec: per-character step of
`rusty_bedrock_lib::file::sanitize`, whose source is not part of this
repository checkout (only its caller `transmit_recipe` is).  The spec fixes
the behaviour: lowercase ASCII letters, digits and underscore pass through,
uppercase ASCII letters are lowercased, every other character becomes an
underscore. -/
def sanitizeChar (c : Char) : Char :=
  if 65 ≤ c.toNat ∧ c.toNat ≤ 90 then Char.ofNat (c.toNat + 32)
  else if sanValidChar c then c else '_'

/-- Modelled from the spec: `rusty_bedrock_lib::file::sanitize`, whose source
is not part of this repository checkout.  Per the spec it maps every
character outside `[a-z0-9_]` (after lowercasing) to `_` and must not return
an empty string; the empty input is therefore sent to `"_"`. -/
def sanitize (s : String) : String :=
  if s.data = [] then String.mk ['_'] else String.mk (s.data.map sanitizeChar)

/-- Modelled from the spec: `rusty_bedrock_lib::file::expand`, whose source
is not part of this repository checkout.  Per the spec it resolves the
home-directory shorthand `~` at the front of a path. -/
def expand (home p : String) : String :=
  match p.data with
  | '~' :: rest => home ++ String.mk rest
  | _ => p

-- ==========================================
-- The tool: transmit_recipe / handle_tool_use
-- ==========================================

/-- One filesystem write (path and contents); image payloads stay base64. -/
structure FsWrite where
  path : String
  data : String

/-- Embeds `transmit_recipe`.  The image-generation service answer (the list of
base64 images from `canvas::text_to_image`) is an explicit argument, `home`
parameterises the library's `expand`.  Returns the filesystem writes it
performs and the `outdir` string it returns. -/
def transmit_recipe (state : ConversationState)
    (file_stem image_prompt recipe_details : String)
    (images : List String) (home : String) : List FsWrite × String :=
  let file_stem := sanitize file_stem
  let outdir := state.output ++ "/" ++ file_stem
  let imageWrites := images.enum.map fun p =>
    ({ path := outdir ++ "-" ++ toString p.1 ++ ".png", data := p.2 } : FsWrite)
  let txt_path := outdir ++ ".txt"
  let expanded := expand home txt_path
  let _ := image_prompt
  (imageWrites ++ [{ path := expanded, data := recipe_details }], outdir)

/-- The argument-extraction expression of `handle_tool_use`, written once:
`input_map.get(key).map_or("default", |doc| doc.as_string().unwrap())`.
A missing key yields `"default"`; a present non-string value panics
(`Option::unwrap` on `None`). -/
def getArg (input_map : List (String × Document)) (key : String) :
    Except String String :=
  match input_map.lookup key with
  | none => Except.ok "default"
  | some doc =>
    match doc.as_string with
    | some s => Except.ok s
    | none => Except.error "called Option.unwrap on a None value"

/-- Embeds `handle_tool_use`.  Takes the state by mutable reference in Rust but
never assigns to it; the embedding returns the state explicitly to make that
checkable.  Panics (`Except.error`) on a tool-name mismatch, on a non-object
input, and on present-but-non-string arguments. -/
def handle_tool_use (state : ConversationState) (tool_use : ToolUseBlock)
    (images : List String) (home : String) :
    Except String (ConversationState × List FsWrite × ToolResultBlock) :=
  if tool_use.name = "transmit_recipe" then
    match tool_use.input.as_object with
    | none => Except.error "called Option.unwrap on a None value"
    | some input_map =>
      match getArg input_map "file_stem" with
      | Except.error e => Except.error e
      | Except.ok file_stem =>
        match getArg input_map "image_prompt" with
        | Except.error e => Except.error e
        | Except.ok image_prompt =>
          match getArg input_map "recipe_details" with
          | Except.error e => Except.error e
          | Except.ok recipe_details =>
            let res := transmit_recipe state file_stem image_prompt recipe_details images home
            Except.ok (state, res.1,
              { tool_use_id := tool_use.tool_use_id
                content := [ToolResultContentBlock.text ("written output to " ++ res.2)] })
  else
    Except.error ("model asked for unexpected tool: " ++ tool_use.name)

-- ==========================================
-- Conversation event loop
-- ==========================================

/-- The environment of one run: scripted answers of the two remote services
(the `converse` endpoint and the image-generation endpoint) plus the home
directory used by path expansion. -/
structure Env where
  script : List ServiceResult
  imageScript : List (List String)
  home : String

/-- Pop the next scripted `converse` answer; an exhausted script behaves as
a service error (the call cannot be answered). -/
def takeService (env : Env) : ServiceResult × Env :=
  match env.script with
  | [] => (ServiceResult.err "no scripted response", env)
  | r :: rest => (r, { env with script := rest })

/-- Pop the next scripted image-generation answer; an exhausted script
yields zero images (a valid outcome). -/
def takeImages (env : Env) : List String × Env :=
  match env.imageScript with
  | [] => ([], env)
  | i :: rest => (i, { env with imageScript := rest })

/-- Observable effects of a run: `println!` output, `warn!` log lines,
filesystem writes, and the tool-use blocks dispatched to the tool. -/
structure Outputs where
  printed : List String
  warned : List String
  writes : List FsWrite
  dispatched : List ToolUseBlock

def Outputs.empty : Outputs := ⟨[], [], [], []⟩

/-- Embeds `conversation_turn`: builds a User message from the input, appends it,
sends the whole history to the service (whose answer is `resp`), asserts the
reply is an Assistant message, appends and returns it.  Service errors, a
missing output and a non-Assistant role are panics. -/
def conversation_turn (state : ConversationState) (turn : ConversationTurnInput)
    (resp : ServiceResult) :
    Except String (ConversationState × StopReason × Message) :=
  let msg : Message := { role := ConversationRole.user, content := [turn.to_content] }
  let state := { state with messages := state.messages ++ [msg] }
  match resp with
  | ServiceResult.err e => Except.error e
  | ServiceResult.ok conversation =>
    match conversation.output with
    | some (ConverseOutput.message m) =>
      if m.role = ConversationRole.assistant then
        Except.ok ({ state with messages := state.messages ++ [m] },
                   conversation.stop_reason, m)
      else Except.error "assertion failed: role is not Assistant"
    | _ => Except.error "No output??"

/-- Result of one pass of `handle_prompt`'s `for content in cloned.content()`
loop: the state after the pass, the remaining environment, the `found_tool`
flag, and the current `stop_reason`/`msg` variables. -/
structure PassResult where
  state : ConversationState
  env : Env
  found : Bool
  sr : StopReason
  msg : Message
  out : Outputs

/-- Result of a whole `handle_prompt` call. -/
structure RunResult where
  state : ConversationState
  env : Env
  out : Outputs

/-- The body of `handle_prompt`'s `for` loop over the cloned reply's content
blocks.  `Text` prints; guardrail/image/tool-result/video blocks log a
warning; a `ToolUse` block dispatches the tool, runs a tool-result turn
(updating `sr`/`msg`) and sets `found`; a `Document` block hits `todo!()`
and the wildcard arm hits `panic!` — both abort. -/
def passBlocks (state : ConversationState) (blocks : List ContentBlock)
    (env : Env) (found : Bool) (sr : StopReason) (msg : Message)
    (out : Outputs) : Except String PassResult :=
  match blocks with
  | [] => Except.ok ⟨state, env, found, sr, msg, out⟩
  | b :: rest =>
    match b with
    | ContentBlock.document => Except.error "not yet implemented"
    | ContentBlock.guardContent =>
      passBlocks state rest env found sr msg
        { out with warned := out.warned ++ ["unexpected guardrail"] }
    | ContentBlock.image =>
      passBlocks state rest env found sr msg
        { out with warned := out.warned ++ ["<<<< unexpected image "] }
    | ContentBlock.text s =>
      passBlocks state rest env found sr msg
        { out with printed := out.printed ++ [s] }
    | ContentBlock.toolResult _ =>
      passBlocks state rest env found sr msg
        { out with warned := out.warned ++ ["unexpected tool result"] }
    | ContentBlock.toolUse tub =>
      let imgsEnv := takeImages env
      match handle_tool_use state tub imgsEnv.1 imgsEnv.2.home with
      | Except.error e => Except.error e
      | Except.ok (state2, writes, trb) =>
        let respEnv := takeService imgsEnv.2
        match conversation_turn state2 (ConversationTurnInput.toolResponse trb) respEnv.1 with
        | Except.error e => Except.error e
        | Except.ok (state3, sr2, msg2) =>
          passBlocks state3 rest respEnv.2 true sr2 msg2
            { out with writes := out.writes ++ writes
                       dispatched := out.dispatched ++ [tub] }
    | ContentBlock.video =>
      passBlocks state rest env found sr msg
        { out with warned := out.warned ++ ["unexpected video"] }
    | ContentBlock.other _ => Except.error "Unknown response ContentBlock"

/-- The `loop` of `handle_prompt`: run one pass over the current reply's
blocks; if no tool was found, return, else loop on the new reply.  `fuel`
bounds the number of passes so the embedding is total; every theorem about
the loop holds for arbitrary fuel. -/
def toolLoop : Nat → ConversationState → Env → StopReason → Message →
    Outputs → Except String RunResult
  | 0, _, _, _, _, _ => Except.error "out of fuel"
  | fuel + 1, state, env, sr, msg, out =>
    match passBlocks state msg.content env false sr msg out with
    | Except.error e => Except.error e
    | Except.ok r =>
      if r.found then toolLoop fuel r.state r.env r.sr r.msg r.out
      else Except.ok ⟨r.state, r.env, r.out⟩

/-- Embeds `handle_prompt`: one user prompt turn followed by the tool-use loop. -/
def handle_prompt (fuel : Nat) (state : ConversationState) (prompt : String)
    (env : Env) : Except String RunResult :=
  let respEnv := takeService env
  match conversation_turn state (ConversationTurnInput.prompt prompt) respEnv.1 with
  | Except.error e => Except.error e
  | Except.ok (state, sr, msg) => toolLoop fuel state respEnv.2 sr msg Outputs.empty

-- ==========================================
-- Predicates used by the statements
-- ==========================================

/-- Does a content block request tool use? -/
def ContentBlock.isToolUse : ContentBlock → Bool
  | ContentBlock.toolUse _ => true
  | _ => false

/-- The warning the loop logs for a block it merely skips (none for blocks
it prints, dispatches, or panics on). -/
def skipWarning : ContentBlock → Option String
  | ContentBlock.guardContent => some "unexpected guardrail"
  | ContentBlock.image => some "<<<< unexpected image "
  | ContentBlock.toolResult _ => some "unexpected tool result"
  | ContentBlock.video => some "unexpected video"
  | _ => none

/-- The opposite conversation role. -/
def ConversationRole.next : ConversationRole → ConversationRole
  | ConversationRole.user => ConversationRole.assistant
  | ConversationRole.assistant => ConversationRole.user

/-- Predicate `rolesAlternate l r` holds when the roles of `l` read
`r, r.next, r, r.next, …`. -/
def rolesAlternate : List Message → ConversationRole → Bool
  | [], _ => true
  | m :: rest, r => (m.role = r : Bool) && rolesAlternate rest r.next

/-- Well-formed history between operations: alternating roles starting with
User, and complete (even length — every user message was answered). -/
def histWF (l : List Message) : Prop :=
  rolesAlternate l ConversationRole.user = true ∧ l.length % 2 = 0

/-- Conversation states reachable by the program: the initial state has an
empty history, and each REPL command (`handle_prompt`) that returns
successfully steps the state. -/
inductive Reachable : ConversationState → Prop where
  | init : ∀ s : ConversationState, s.messages = [] → Reachable s
  | step : ∀ (s : ConversationState) (fuel : Nat) (prompt : String) (env : Env)
      (r : RunResult), Reachable s → handle_prompt fuel s prompt env = Except.ok r →
      Reachable r.state

/-- Two service answers that differ at most in their stop reason. -/
inductive RespSame : ServiceResult → ServiceResult → Prop where
  | err : ∀ e, RespSame (ServiceResult.err e) (ServiceResult.err e)
  | ok : ∀ sr sr' out, RespSame (ServiceResult.ok ⟨sr, out⟩) (ServiceResult.ok ⟨sr', out⟩)

/-- Two environments that differ at most in the stop reasons their model
scripts return. -/
def EnvSame (e₁ e₂ : Env) : Prop :=
  List.Forall₂ RespSame e₁.script e₂.script ∧
    e₁.imageScript = e₂.imageScript ∧ e₁.home = e₂.home

/-- Agreement of two `handle_prompt` results up to stop reasons: same final
state, same observable outputs, equivalent remaining environments, or the
same panic. -/
def runAgree : Except String RunResult → Except String RunResult → Prop
  | Except.ok r₁, Except.ok r₂ =>
    r₁.state = r₂.state ∧ r₁.out = r₂.out ∧ EnvSame r₁.env r₂.env
  | Except.error a, Except.error b => a = b
  | _, _ => False

/-- Agreement of two `conversation_turn` results up to the stop reason. -/
def turnAgree : Except String (ConversationState × StopReason × Message) →
    Except String (ConversationState × StopReason × Message) → Prop
  | Except.ok (s₁, _, m₁), Except.ok (s₂, _, m₂) => s₁ = s₂ ∧ m₁ = m₂
  | Except.error a, Except.error b => a = b
  | _, _ => False

/-- Agreement of two pass results up to the stop reason. -/
def passAgree : Except String PassResult → Except String PassResult → Prop
  | Except.ok r₁, Except.ok r₂ =>
    r₁.state = r₂.state ∧ EnvSame r₁.env r₂.env ∧ r₁.found = r₂.found ∧
      r₁.msg = r₂.msg ∧ r₁.out = r₂.out
  | Except.error a, Except.error b => a = b
  | _, _ => False

-- ==========================================
-- Concrete fixtures for evaluating the embedding
-- ==========================================

/-- A fresh session state (empty history). -/
def stateW : ConversationState :=
  { model := "m", output := ".", verbose := false, system_prompt := none
    messages := [], tools := none }

/-- A plain-text assistant reply. -/
def msgHi : Message := { role := ConversationRole.assistant, content := [ContentBlock.text "hi"] }

/-- A one-reply script ending the turn. -/
def envW : Env :=
  { script := [ServiceResult.ok ⟨StopReason.endTurn, some (ConverseOutput.message msgHi)⟩]
    imageScript := [], home := "" }

/-- The same script with a different stop reason. -/
def envW2 : Env :=
  { script := [ServiceResult.ok ⟨StopReason.toolUse, some (ConverseOutput.message msgHi)⟩]
    imageScript := [], home := "" }

/-- An exhausted environment. -/
def envEmpty : Env := { script := [], imageScript := [], home := "" }

/-- A tool-use block whose `file_stem` argument is present but not a string. -/
def tubBad : ToolUseBlock :=
  { tool_use_id := "id1", name := "transmit_recipe"
    input := Document.object [("file_stem", Document.number 3)] }

/-- A tool-use block naming a tool that was never declared. -/
def tubOther : ToolUseBlock :=
  { tool_use_id := "id2", name := "other_tool", input := Document.null }

/-- A well-formed tool-use block with all arguments missing (soft default). -/
def tubOk : ToolUseBlock :=
  { tool_use_id := "id3", name := "transmit_recipe", input := Document.object [] }

/-- The run result of `handle_prompt 1 stateW "hello" envW`. -/
def runW : RunResult :=
  { state := { stateW with
      messages := [ { role := ConversationRole.user, content := [ContentBlock.text "hello"] }, msgHi ] }
    env := envEmpty
    out := { printed := ["hi"], warned := [], writes := [], dispatched := [] } }

-- ==========================================
-- Helper lemmas
-- ==========================================

theorem char_toNat_ofNat (n : Nat) (h : n < 55296) : (Char.ofNat n).toNat = n := by
  have hv : n.isValidChar := Or.inl h
  rw [Char.ofNat, dif_pos hv]
  rfl

theorem sanitizeChar_fixed (c : Char) (h : sanValidChar c = true) : sanitizeChar c = c := by
  have h' : (97 ≤ c.toNat ∧ c.toNat ≤ 122) ∨ (48 ≤ c.toNat ∧ c.toNat ≤ 57) ∨ c.toNat = 95 := by
    simpa [sanValidChar] using h
  unfold sanitizeChar
  rw [if_neg (by omega), if_pos h]

theorem sanitizeChar_valid (c : Char) : sanValidChar (sanitizeChar c) = true := by
  unfold sanitizeChar
  by_cases h1 : 65 ≤ c.toNat ∧ c.toNat ≤ 90
  · rw [if_pos h1]
    have ht : (Char.ofNat (c.toNat + 32)).toNat = c.toNat + 32 :=
      char_toNat_ofNat _ (by omega)
    simp only [sanValidChar, ht, decide_eq_true_eq]
    omega
  · rw [if_neg h1]
    by_cases h2 : sanValidChar c
    · rw [if_pos h2]; exact h2
    · rw [if_neg h2]; decide

theorem sanitizeChar_idem (c : Char) : sanitizeChar (sanitizeChar c) = sanitizeChar c :=
  sanitizeChar_fixed _ (sanitizeChar_valid c)

-- ==========================================
-- C3: sanitize is non-empty, stays in [a-z0-9_], and is idempotent
-- ==========================================

/-- C3.  For every input string `s`, `sanitize s` is non-empty, contains only
characters from `[a-z0-9_]`, and `sanitize` is idempotent:
`sanitize (sanitize s) = sanitize s`. -/
theorem C3_sanitize_safe (s : String) :
    0 < (sanitize s).length ∧ (sanitize s).data.all sanValidChar = true ∧
      sanitize (sanitize s) = sanitize s := by
  unfold sanitize
  by_cases h : s.data = []
  · rw [if_pos h]
    refine ⟨by decide, by decide, ?_⟩
    decide
  · rw [if_neg h]
    refine ⟨?_, ?_, ?_⟩
    · show 0 < (s.data.map sanitizeChar).length
      simpa using List.length_pos.mpr h
    · show (s.data.map sanitizeChar).all sanValidChar = true
      simp only [List.all_eq_true, List.mem_map]
      rintro x ⟨c, _, rfl⟩
      exact sanitizeChar_valid c
    · show sanitize (String.mk (s.data.map sanitizeChar)) = String.mk (s.data.map sanitizeChar)
      unfold sanitize
      rw [if_neg (by simpa using h)]
      rw [List.map_map]
      exact congrArg String.mk
        (List.map_congr_left fun c _ => sanitizeChar_idem c)

-- ==========================================
-- C4: transmit with zero images
-- ==========================================

/-- C4.  When the image-generation service returns zero images,
`transmit_recipe` performs exactly one filesystem write — the file
`<output_root>/<sanitized_stem>.txt` (after home-shorthand expansion)
containing the recipe text — hence creates no `.png` file, and returns the
output directory path `<output_root>/<sanitized_stem>`. -/
theorem C4_transmit_zero_images (state : ConversationState)
    (fs ip rd home : String) :
    transmit_recipe state fs ip rd [] home =
      ([{ path := expand home (state.output ++ "/" ++ sanitize fs ++ ".txt"), data := rd }],
        state.output ++ "/" ++ sanitize fs) := by
  unfold transmit_recipe
  rfl

-- ==========================================
-- C5: tool-name mismatch is an error with no writes
-- ==========================================

/-- C5.  A tool-use block naming any tool other than `transmit_recipe` makes
dispatch fail with the tool-mismatch panic; the result carries no filesystem
write (and is independent of the image service's answer). -/
theorem C5_tool_mismatch (state : ConversationState) (tub : ToolUseBlock)
    (imgs : List String) (home : String)
    (h : tub.name ≠ "transmit_recipe") :
    handle_tool_use state tub imgs home =
      Except.error ("model asked for unexpected tool: " ++ tub.name) := by
  unfold handle_tool_use
  rw [if_neg h]

theorem C5_tool_mismatch_witness :
    handle_tool_use stateW tubOther [] "" =
      Except.error ("model asked for unexpected tool: " ++ tubOther.name) :=
  C5_tool_mismatch stateW tubOther [] "" (by decide)

-- ==========================================
-- C2: argument extraction (corrected: present non-string arguments panic)
-- ==========================================

/-- C2 counterexample.  A tool-use block naming the declared tool whose
`file_stem` argument is present but a number (not a string) makes dispatch
abort with an unwrap panic, contradicting "dispatch never rejects or aborts
on a malformed (missing or non-string) argument". -/
theorem C2_nonstring_arg_aborts :
    handle_tool_use stateW tubBad [] "" =
      Except.error "called Option.unwrap on a None value" := by
  rfl

/-- C2 amended.  For each tool argument, dispatch substitutes the literal
`"default"` only when the argument is absent; a present string argument is
read as its value, and a present non-string argument aborts dispatch with an
unwrap panic (it is not recovered). -/
theorem C2_arg_defaulting (m : List (String × Document)) (k : String) :
    (m.lookup k = none → getArg m k = Except.ok "default") ∧
      (∀ s : String, m.lookup k = some (Document.string s) → getArg m k = Except.ok s) ∧
      (∀ d : Document, m.lookup k = some d → d.as_string = none →
        getArg m k = Except.error "called Option.unwrap on a None value") := by
  refine ⟨fun h => ?_, fun s h => ?_, fun d h h' => ?_⟩
  · unfold getArg
    rw [h]
  · unfold getArg
    rw [h]
    rfl
  · simp [getArg, h, h']

theorem C2_arg_defaulting_witness :
    getArg [] "file_stem" = Except.ok "default" ∧
      getArg [("image_prompt", Document.string "x")] "image_prompt" = Except.ok "x" ∧
      getArg [("file_stem", Document.number 3)] "file_stem" =
        Except.error "called Option.unwrap on a None value" :=
  ⟨(C2_arg_defaulting [] "file_stem").1 rfl,
   (C2_arg_defaulting [("image_prompt", Document.string "x")] "image_prompt").2.1 "x" rfl,
   (C2_arg_defaulting [("file_stem", Document.number 3)] "file_stem").2.2
     (Document.number 3) rfl rfl⟩

-- ==========================================
-- C1: non-text, non-tool-use blocks (corrected: Document and unknown panic)
-- ==========================================

/-- C1 counterexample.  A reply whose content holds a Document block aborts
the tool-use loop (the `todo!()` arm), contradicting "processing such a
block never aborts the loop or the process". -/
theorem C1_document_aborts :
    toolLoop 1 stateW envEmpty StopReason.endTurn
      { role := ConversationRole.assistant, content := [ContentBlock.document] }
      Outputs.empty = Except.error "not yet implemented" := by
  rfl

/-- C1 amended.  Image, video, guardrail and (unexpected) tool-result blocks
in an inspected reply are only logged and skipped — the pass continues
unchanged except for the warning; Document blocks and unrecognized variants,
however, abort the process (`todo!()` / `panic!`). -/
theorem C1_skippable_blocks (state : ConversationState) (b : ContentBlock)
    (rest : List ContentBlock) (env : Env) (found : Bool) (sr : StopReason)
    (msg : Message) (out : Outputs) (w : String)
    (h : skipWarning b = some w) :
    passBlocks state (b :: rest) env found sr msg out =
      passBlocks state rest env found sr msg
        { out with warned := out.warned ++ [w] } := by
  cases b <;> simp [skipWarning] at h <;> simp [passBlocks, h]

theorem C1_skippable_blocks_witness :
    passBlocks stateW [ContentBlock.image] envEmpty false StopReason.endTurn msgHi
      Outputs.empty =
      passBlocks stateW [] envEmpty false StopReason.endTurn msgHi
        { Outputs.empty with warned := Outputs.empty.warned ++ ["<<<< unexpected image "] } :=
  C1_skippable_blocks stateW ContentBlock.image [] envEmpty false StopReason.endTurn
    msgHi Outputs.empty "<<<< unexpected image " rfl

-- ==========================================
-- C6: one turn appends exactly the user message and the assistant reply
-- ==========================================

theorem conversation_turn_ok (state : ConversationState) (turn : ConversationTurnInput)
    (resp : ServiceResult) (st : ConversationState) (sr : StopReason) (m : Message)
    (h : conversation_turn state turn resp = Except.ok (st, sr, m)) :
    st = { state with messages := state.messages ++
            [{ role := ConversationRole.user, content := [turn.to_content] }, m] } ∧
      m.role = ConversationRole.assistant := by
  unfold conversation_turn at h
  split at h
  · simp at h
  · split at h
    · split at h
      next hr =>
        simp only [Except.ok.injEq, Prod.mk.injEq] at h
        obtain ⟨hst, _, hm⟩ := h
        subst hm
        refine ⟨?_, hr⟩
        rw [← hst]
        simp [List.append_assoc]
      next => simp at h
    · simp at h

/-- C6.  Every successful `conversation_turn` appends exactly two messages to
the history: first the User message built from the input (a Prompt becomes a
Text block, a ToolResult becomes a ToolResult block carrying the originating
tool-use id — this is `to_content`), then the Assistant message returned by
the service, which is also the returned message. -/
theorem C6_turn_appends_two (state : ConversationState) (turn : ConversationTurnInput)
    (resp : ServiceResult) (st : ConversationState) (sr : StopReason) (m : Message)
    (h : conversation_turn state turn resp = Except.ok (st, sr, m)) :
    st.messages = state.messages ++
        [{ role := ConversationRole.user, content := [turn.to_content] }, m] ∧
      m.role = ConversationRole.assistant := by
  obtain ⟨h1, h2⟩ := conversation_turn_ok state turn resp st sr m h
  subst h1
  exact ⟨rfl, h2⟩

theorem C6_turn_appends_two_witness :
    ({ stateW with messages :=
        [{ role := ConversationRole.user, content := [ContentBlock.text "hi"] }, msgHi] } :
        ConversationState).messages =
      stateW.messages ++
        [{ role := ConversationRole.user,
           content := [(ConversationTurnInput.prompt "hi").to_content] }, msgHi] ∧
      msgHi.role = ConversationRole.assistant :=
  C6_turn_appends_two stateW (ConversationTurnInput.prompt "hi")
    (ServiceResult.ok ⟨StopReason.endTurn, some (ConverseOutput.message msgHi)⟩)
    { stateW with messages :=
        [{ role := ConversationRole.user, content := [ContentBlock.text "hi"] }, msgHi] }
    StopReason.endTurn msgHi rfl

-- ==========================================
-- C10: executing the tool never touches the conversation state
-- ==========================================

theorem handle_tool_use_ok (state : ConversationState) (tub : ToolUseBlock)
    (imgs : List String) (home : String) (st : ConversationState)
    (w : List FsWrite) (trb : ToolResultBlock)
    (h : handle_tool_use state tub imgs home = Except.ok (st, w, trb)) :
    st = state ∧ trb.tool_use_id = tub.tool_use_id := by
  unfold handle_tool_use at h
  split at h
  · split at h
    · simp at h
    · split at h
      · simp at h
      · split at h
        · simp at h
        · split at h
          · simp at h
          · simp only [Except.ok.injEq, Prod.mk.injEq] at h
            obtain ⟨hst, _, htrb⟩ := h
            subst htrb
            exact ⟨hst.symm, rfl⟩
  · simp at h

/-- C10.  Executing the tool never modifies the conversation state: a
successful `handle_tool_use` returns the state it was given (history, model
id, system prompt, tool schema and output root all unchanged) and a tool
result carrying the original tool-use id; and `transmit_recipe` reads the
state only through its immutable `output` field, so any two states with the
same output root produce identical writes and the same directory. -/
theorem C10_tool_frame :
    (∀ (state : ConversationState) (tub : ToolUseBlock) (imgs : List String)
        (home : String) (st : ConversationState) (w : List FsWrite)
        (trb : ToolResultBlock),
      handle_tool_use state tub imgs home = Except.ok (st, w, trb) →
        st = state ∧ trb.tool_use_id = tub.tool_use_id) ∧
    ∀ (s₁ s₂ : ConversationState) (fs ip rd : String) (imgs : List String)
        (home : String), s₁.output = s₂.output →
      transmit_recipe s₁ fs ip rd imgs home = transmit_recipe s₂ fs ip rd imgs home := by
  constructor
  · exact fun state tub imgs home st w trb h =>
      handle_tool_use_ok state tub imgs home st w trb h
  · intro s₁ s₂ fs ip rd imgs home h
    unfold transmit_recipe
    rw [h]

theorem C10_tool_frame_witness :
    (stateW = stateW ∧
      (⟨"id3", [ToolResultContentBlock.text "written output to ./default"]⟩ :
        ToolResultBlock).tool_use_id = tubOk.tool_use_id) ∧
      transmit_recipe stateW "a" "b" "c" [] "" =
        transmit_recipe { stateW with verbose := true } "a" "b" "c" [] "" :=
  ⟨C10_tool_frame.1 stateW tubOk [] "" stateW
      [⟨"./default.txt", "default"⟩]
      ⟨"id3", [ToolResultContentBlock.text "written output to ./default"]⟩ rfl,
   C10_tool_frame.2 stateW { stateW with verbose := true } "a" "b" "c" [] "" rfl⟩

-- ==========================================
-- C8: the loop ends exactly when a pass sees no tool-use block
-- ==========================================

theorem passBlocks_noTool_found (blocks : List ContentBlock) :
    ∀ (state : ConversationState) (env : Env) (found : Bool) (sr : StopReason)
      (msg : Message) (out : Outputs) (r : PassResult),
      passBlocks state blocks env found sr msg out = Except.ok r →
      blocks.all (fun b => ! b.isToolUse) = true → r.found = found := by
  induction blocks with
  | nil =>
    intro state env found sr msg out r h _
    simp only [passBlocks, Except.ok.injEq] at h
    subst h
    rfl
  | cons b rest ih =>
    intro state env found sr msg out r h hall
    simp only [List.all_cons, Bool.and_eq_true] at hall
    cases b with
    | document => simp [passBlocks] at h
    | guardContent =>
      simp only [passBlocks] at h
      exact ih _ _ _ _ _ _ _ h hall.2
    | image =>
      simp only [passBlocks] at h
      exact ih _ _ _ _ _ _ _ h hall.2
    | text s =>
      simp only [passBlocks] at h
      exact ih _ _ _ _ _ _ _ h hall.2
    | toolResult trb =>
      simp only [passBlocks] at h
      exact ih _ _ _ _ _ _ _ h hall.2
    | toolUse tub => simp [ContentBlock.isToolUse] at hall
    | video =>
      simp only [passBlocks] at h
      exact ih _ _ _ _ _ _ _ h hall.2
    | other tag => simp [passBlocks] at h

/-- C8.  If a pass over the current reply's content blocks encounters no
ToolUse block, the tool-use loop terminates on that pass: its result is
exactly the single pass's result (independent of the remaining fuel, i.e. no
further pass runs), and it returns control whenever the pass itself does
not panic.  Equivalently, the loop runs another pass only when the inspected
reply contained a ToolUse block. -/
theorem C8_loop_termination (fuel : Nat) (state : ConversationState) (env : Env)
    (sr : StopReason) (msg : Message) (out : Outputs)
    (h : msg.content.all (fun b => ! b.isToolUse) = true) :
    toolLoop (fuel + 1) state env sr msg out =
      Except.map (fun r => ⟨r.state, r.env, r.out⟩)
        (passBlocks state msg.content env false sr msg out) := by
  simp only [toolLoop]
  cases hp : passBlocks state msg.content env false sr msg out with
  | error e => rfl
  | ok r =>
    have hf : r.found = false :=
      passBlocks_noTool_found msg.content state env false sr msg out r hp h
    simp [hf, Except.map]

theorem C8_loop_termination_witness :
    toolLoop 3 stateW envEmpty StopReason.endTurn msgHi Outputs.empty =
      Except.map (fun r => ⟨r.state, r.env, r.out⟩)
        (passBlocks stateW msgHi.content envEmpty false StopReason.endTurn msgHi
          Outputs.empty) :=
  C8_loop_termination 2 stateW envEmpty StopReason.endTurn msgHi Outputs.empty rfl

-- ==========================================
-- C7: the history alternates User/Assistant and only grows
-- ==========================================

theorem ConversationRole.next_next (r : ConversationRole) : r.next.next = r := by
  cases r <;> rfl

theorem rolesAlternate_append_pair :
    ∀ (l : List Message) (r : ConversationRole) (u a : Message),
      rolesAlternate l r = true → l.length % 2 = 0 → u.role = r →
      a.role = r.next → rolesAlternate (l ++ [u, a]) r = true
  | [], r, u, a, _, _, hu, ha => by
    simp [rolesAlternate, hu, ha]
  | [x], _, _, _, _, hlen, _, _ => by
    simp at hlen
  | x :: y :: rest, r, u, a, halt, hlen, hu, ha => by
    simp only [rolesAlternate, Bool.and_eq_true, decide_eq_true_eq] at halt
    obtain ⟨hx, hy, hrest⟩ := halt
    rw [ConversationRole.next_next] at hrest
    have hlen' : rest.length % 2 = 0 := by
      simp only [List.length_cons] at hlen
      omega
    have htail := rolesAlternate_append_pair rest r u a hrest hlen' hu ha
    simp only [List.cons_append, rolesAlternate, Bool.and_eq_true, decide_eq_true_eq]
    rw [ConversationRole.next_next]
    exact ⟨hx, hy, htail⟩

theorem histWF_append (l : List Message) (u a : Message) (hw : histWF l)
    (hu : u.role = ConversationRole.user)
    (ha : a.role = ConversationRole.assistant) : histWF (l ++ [u, a]) := by
  refine ⟨rolesAlternate_append_pair l ConversationRole.user u a hw.1 hw.2 hu ha, ?_⟩
  have := hw.2
  simp only [List.length_append, List.length_cons, List.length_nil]
  omega

theorem conversation_turn_evolve (state : ConversationState)
    (turn : ConversationTurnInput) (resp : ServiceResult)
    (st : ConversationState) (sr : StopReason) (m : Message)
    (h : conversation_turn state turn resp = Except.ok (st, sr, m)) :
    (histWF state.messages → histWF st.messages) ∧
      ∃ t, state.messages ++ t = st.messages := by
  obtain ⟨hst, hrole⟩ := conversation_turn_ok state turn resp st sr m h
  subst hst
  constructor
  · intro hw
    exact histWF_append _ _ _ hw rfl hrole
  · exact ⟨_, rfl⟩

theorem passBlocks_evolve (blocks : List ContentBlock) :
    ∀ (state : ConversationState) (env : Env) (found : Bool) (sr : StopReason)
      (msg : Message) (out : Outputs) (r : PassResult),
      passBlocks state blocks env found sr msg out = Except.ok r →
      (histWF state.messages → histWF r.state.messages) ∧
        ∃ t, state.messages ++ t = r.state.messages := by
  induction blocks with
  | nil =>
    intro state env found sr msg out r h
    simp only [passBlocks, Except.ok.injEq] at h
    subst h
    exact ⟨id, ⟨[], by simp⟩⟩
  | cons b rest ih =>
    intro state env found sr msg out r h
    cases b with
    | document => simp [passBlocks] at h
    | guardContent =>
      simp only [passBlocks] at h
      exact ih _ _ _ _ _ _ _ h
    | image =>
      simp only [passBlocks] at h
      exact ih _ _ _ _ _ _ _ h
    | text s =>
      simp only [passBlocks] at h
      exact ih _ _ _ _ _ _ _ h
    | toolResult trb =>
      simp only [passBlocks] at h
      exact ih _ _ _ _ _ _ _ h
    | toolUse tub =>
      simp only [passBlocks] at h
      split at h
      · simp at h
      · next state2 writes trb heq =>
        split at h
        · simp at h
        · next state3 sr2 msg2 heq2 =>
          obtain ⟨hse, _⟩ := handle_tool_use_ok _ _ _ _ _ _ _ heq
          subst hse
          have h1 := conversation_turn_evolve _ _ _ _ _ _ heq2
          have h2 := ih _ _ _ _ _ _ _ h
          obtain ⟨t1, ht1⟩ := h1.2
          obtain ⟨t2, ht2⟩ := h2.2
          refine ⟨fun hw => h2.1 (h1.1 hw), ⟨t1 ++ t2, ?_⟩⟩
          rw [← List.append_assoc, ht1, ht2]
    | video =>
      simp only [passBlocks] at h
      exact ih _ _ _ _ _ _ _ h
    | other tag => simp [passBlocks] at h

theorem toolLoop_evolve :
    ∀ (fuel : Nat) (state : ConversationState) (env : Env) (sr : StopReason)
      (msg : Message) (out : Outputs) (res : RunResult),
      toolLoop fuel state env sr msg out = Except.ok res →
      (histWF state.messages → histWF res.state.messages) ∧
        ∃ t, state.messages ++ t = res.state.messages := by
  intro fuel
  induction fuel with
  | zero =>
    intro state env sr msg out res h
    simp [toolLoop] at h
  | succ fuel ih =>
    intro state env sr msg out res h
    simp only [toolLoop] at h
    split at h
    · simp at h
    · next r heq =>
      split at h
      · have h1 := passBlocks_evolve _ _ _ _ _ _ _ _ heq
        have h2 := ih _ _ _ _ _ _ h
        obtain ⟨t1, ht1⟩ := h1.2
        obtain ⟨t2, ht2⟩ := h2.2
        refine ⟨fun hw => h2.1 (h1.1 hw), ⟨t1 ++ t2, ?_⟩⟩
        rw [← List.append_assoc, ht1, ht2]
      · simp only [Except.ok.injEq] at h
        subst h
        exact passBlocks_evolve _ _ _ _ _ _ _ _ heq

theorem handle_prompt_evolve (fuel : Nat) (state : ConversationState)
    (prompt : String) (env : Env) (res : RunResult)
    (h : handle_prompt fuel state prompt env = Except.ok res) :
    (histWF state.messages → histWF res.state.messages) ∧
      ∃ t, state.messages ++ t = res.state.messages := by
  simp only [handle_prompt] at h
  split at h
  · simp at h
  · next st sr msg heq =>
    have h1 := conversation_turn_evolve _ _ _ _ _ _ heq
    have h2 := toolLoop_evolve _ _ _ _ _ _ _ h
    obtain ⟨t1, ht1⟩ := h1.2
    obtain ⟨t2, ht2⟩ := h2.2
    refine ⟨fun hw => h2.1 (h1.1 hw), ⟨t1 ++ t2, ?_⟩⟩
    rw [← List.append_assoc, ht1, ht2]

theorem reachable_wf (s : ConversationState) (h : Reachable s) :
    histWF s.messages := by
  induction h with
  | init s hs => simp [histWF, hs, rolesAlternate]
  | step s fuel prompt env r _ hrun ih =>
    exact (handle_prompt_evolve fuel s prompt env r hrun).1 ih

/-- C7.  In every reachable conversation state the history is an alternating
sequence of User and Assistant messages beginning with a User message, and
the REPL operation (`handle_prompt`) only appends: the old history is an
initial segment of the new one — nothing is rewritten, reordered or
deleted. -/
theorem C7_history_invariant (s : ConversationState) (hs : Reachable s)
    (fuel : Nat) (prompt : String) (env : Env) (res : RunResult)
    (hrun : handle_prompt fuel s prompt env = Except.ok res) :
    rolesAlternate s.messages ConversationRole.user = true ∧
      rolesAlternate res.state.messages ConversationRole.user = true ∧
      ∃ t, s.messages ++ t = res.state.messages := by
  have hw := reachable_wf s hs
  have he := handle_prompt_evolve fuel s prompt env res hrun
  exact ⟨hw.1, (he.1 hw).1, he.2⟩

theorem C7_history_invariant_witness :
    rolesAlternate stateW.messages ConversationRole.user = true ∧
      rolesAlternate runW.state.messages ConversationRole.user = true ∧
      ∃ t, stateW.messages ++ t = runW.state.messages :=
  C7_history_invariant stateW (Reachable.init stateW rfl) 1 "hello" envW runW rfl

-- ==========================================
-- C9: the loop's behaviour does not depend on the stop reason
-- ==========================================

theorem takeImages_same (e₁ e₂ : Env) (he : EnvSame e₁ e₂) :
    (takeImages e₁).1 = (takeImages e₂).1 ∧
      EnvSame (takeImages e₁).2 (takeImages e₂).2 := by
  obtain ⟨hs, hi, hh⟩ := he
  obtain ⟨s₁, i₁, h₁⟩ := e₁
  obtain ⟨s₂, i₂, h₂⟩ := e₂
  dsimp only at hi hh
  subst hi
  subst hh
  cases i₁ with
  | nil => exact ⟨rfl, hs, rfl, rfl⟩
  | cons i it => exact ⟨rfl, hs, rfl, rfl⟩

theorem takeService_same (e₁ e₂ : Env) (he : EnvSame e₁ e₂) :
    RespSame (takeService e₁).1 (takeService e₂).1 ∧
      EnvSame (takeService e₁).2 (takeService e₂).2 := by
  obtain ⟨hs, hi, hh⟩ := he
  obtain ⟨s₁, i₁, h₁⟩ := e₁
  obtain ⟨s₂, i₂, h₂⟩ := e₂
  dsimp only at hi hh
  subst hi
  subst hh
  cases hs with
  | nil => exact ⟨RespSame.err _, List.Forall₂.nil, rfl, rfl⟩
  | cons hpq hrest => exact ⟨hpq, hrest, rfl, rfl⟩

theorem conversation_turn_same (state : ConversationState)
    (turn : ConversationTurnInput) (p q : ServiceResult) (h : RespSame p q) :
    turnAgree (conversation_turn state turn p) (conversation_turn state turn q) := by
  cases h with
  | err e => exact rfl
  | ok sr sr' out =>
    cases out with
    | none => exact rfl
    | some o =>
      cases o with
      | unknown => exact rfl
      | message m =>
        by_cases hr : m.role = ConversationRole.assistant
        · simp [conversation_turn, hr, turnAgree]
        · simp [conversation_turn, hr, turnAgree]

theorem passBlocks_same (blocks : List ContentBlock) :
    ∀ (state : ConversationState) (found : Bool) (sr₁ sr₂ : StopReason)
      (msg : Message) (out : Outputs) (e₁ e₂ : Env), EnvSame e₁ e₂ →
      passAgree (passBlocks state blocks e₁ found sr₁ msg out)
        (passBlocks state blocks e₂ found sr₂ msg out) := by
  induction blocks with
  | nil =>
    intro state found sr₁ sr₂ msg out e₁ e₂ he
    exact ⟨rfl, he, rfl, rfl, rfl⟩
  | cons b rest ih =>
    intro state found sr₁ sr₂ msg out e₁ e₂ he
    cases b with
    | document => exact rfl
    | guardContent => exact ih _ _ _ _ _ _ _ _ he
    | image => exact ih _ _ _ _ _ _ _ _ he
    | text s => exact ih _ _ _ _ _ _ _ _ he
    | toolResult trb => exact ih _ _ _ _ _ _ _ _ he
    | toolUse tub =>
      simp only [passBlocks]
      obtain ⟨him, henv2⟩ := takeImages_same e₁ e₂ he
      rw [him, henv2.2.2]
      cases hht : handle_tool_use state tub (takeImages e₂).1 (takeImages e₂).2.home with
      | error e => exact rfl
      | ok trip =>
        obtain ⟨state2, writes, trb⟩ := trip
        dsimp only
        obtain ⟨hresp, henv3⟩ := takeService_same _ _ henv2
        have hct := conversation_turn_same state2
          (ConversationTurnInput.toolResponse trb) _ _ hresp
        cases hc1 : conversation_turn state2 (ConversationTurnInput.toolResponse trb)
            (takeService (takeImages e₁).2).1 with
        | error a =>
          cases hc2 : conversation_turn state2 (ConversationTurnInput.toolResponse trb)
              (takeService (takeImages e₂).2).1 with
          | error b =>
            rw [hc1, hc2] at hct
            exact hct
          | ok t2 =>
            rw [hc1, hc2] at hct
            exact hct.elim
        | ok t1 =>
          obtain ⟨state3, sr3, msg3⟩ := t1
          cases hc2 : conversation_turn state2 (ConversationTurnInput.toolResponse trb)
              (takeService (takeImages e₂).2).1 with
          | error b =>
            rw [hc1, hc2] at hct
            exact hct.elim
          | ok t2 =>
            obtain ⟨state3', sr3', msg3'⟩ := t2
            rw [hc1, hc2] at hct
            obtain ⟨hse, hme⟩ := hct
            subst hse
            subst hme
            exact ih _ _ _ _ _ _ _ _ henv3
    | video => exact ih _ _ _ _ _ _ _ _ he
    | other tag => exact rfl

theorem toolLoop_same :
    ∀ (fuel : Nat) (state : ConversationState) (sr₁ sr₂ : StopReason)
      (msg : Message) (out : Outputs) (e₁ e₂ : Env), EnvSame e₁ e₂ →
      runAgree (toolLoop fuel state e₁ sr₁ msg out)
        (toolLoop fuel state e₂ sr₂ msg out) := by
  intro fuel
  induction fuel with
  | zero =>
    intro state sr₁ sr₂ msg out e₁ e₂ _
    exact rfl
  | succ fuel ih =>
    intro state sr₁ sr₂ msg out e₁ e₂ he
    simp only [toolLoop]
    have hp := passBlocks_same msg.content state false sr₁ sr₂ msg out e₁ e₂ he
    cases hp1 : passBlocks state msg.content e₁ false sr₁ msg out with
    | error a =>
      cases hp2 : passBlocks state msg.content e₂ false sr₂ msg out with
      | error b =>
        rw [hp1, hp2] at hp
        exact hp
      | ok r₂ =>
        rw [hp1, hp2] at hp
        exact hp.elim
    | ok r₁ =>
      cases hp2 : passBlocks state msg.content e₂ false sr₂ msg out with
      | error b =>
        rw [hp1, hp2] at hp
        exact hp.elim
      | ok r₂ =>
        rw [hp1, hp2] at hp
        obtain ⟨hst, henv, hfound, hmsg, hout⟩ := hp
        obtain ⟨rs₁, re₁, rf₁, rsr₁, rm₁, ro₁⟩ := r₁
        obtain ⟨rs₂, re₂, rf₂, rsr₂, rm₂, ro₂⟩ := r₂
        dsimp only at hst henv hfound hmsg hout ⊢
        subst hst
        subst hfound
        subst hmsg
        subst hout
        cases rf₁ with
        | false => exact ⟨rfl, rfl, henv⟩
        | true => exact ih rs₁ rsr₁ rsr₂ rm₁ ro₁ re₁ re₂ henv

/-- C9.  The tool-use loop's control flow does not depend on the StopReason:
two runs of `handle_prompt` from the same state and prompt whose service
scripts agree on everything except the returned stop reasons produce the
same printed output, the same warnings, the same dispatched tools, the same
filesystem writes, the same final history, and the same decision to
terminate or abort (`runAgree`). -/
theorem C9_stop_reason_noninterference (fuel : Nat) (state : ConversationState)
    (prompt : String) (e₁ e₂ : Env) (he : EnvSame e₁ e₂) :
    runAgree (handle_prompt fuel state prompt e₁)
      (handle_prompt fuel state prompt e₂) := by
  simp only [handle_prompt]
  obtain ⟨hresp, henv⟩ := takeService_same e₁ e₂ he
  have hct := conversation_turn_same state (ConversationTurnInput.prompt prompt) _ _ hresp
  cases hc1 : conversation_turn state (ConversationTurnInput.prompt prompt)
      (takeService e₁).1 with
  | error a =>
    cases hc2 : conversation_turn state (ConversationTurnInput.prompt prompt)
        (takeService e₂).1 with
    | error b =>
      rw [hc1, hc2] at hct
      exact hct
    | ok t2 =>
      rw [hc1, hc2] at hct
      exact hct.elim
  | ok t1 =>
    obtain ⟨st, sr, msg⟩ := t1
    cases hc2 : conversation_turn state (ConversationTurnInput.prompt prompt)
        (takeService e₂).1 with
    | error b =>
      rw [hc1, hc2] at hct
      exact hct.elim
    | ok t2 =>
      obtain ⟨st', sr', msg'⟩ := t2
      rw [hc1, hc2] at hct
      obtain ⟨hse, hme⟩ := hct
      subst hse
      subst hme
      exact toolLoop_same fuel st sr sr' msg Outputs.empty _ _ henv

theorem C9_stop_reason_noninterference_witness :
    runAgree (handle_prompt 1 stateW "hi" envW) (handle_prompt 1 stateW "hi" envW2) :=
  C9_stop_reason_noninterference 1 stateW "hi" envW envW2
    ⟨List.Forall₂.cons
        (RespSame.ok StopReason.endTurn StopReason.toolUse
          (some (ConverseOutput.message msgHi)))
        List.Forall₂.nil,
      rfl, rfl⟩
